import Mathlib

/-!
Verification of the leaf-detection / region-management / spray-decision core
of the SIHH01 repository (files `app/video_detection.py`, `app/leaf_detector.py`,
`app/routes.py`), as a shallow embedding in Lean.

Modelling conventions:
* Python floats (timestamps, severities, confidences, thresholds) are `ℚ`;
  pixel coordinates and millisecond durations are `ℤ`.
* A video frame is represented only by its shape `(height, width)`; the raw
  pixel content never influences the control flow that is modelled here.
  Image-processing primitives supplied by OpenCV (contour extraction, the
  neural network forward pass) are inputs of the embedded functions: a call
  that can raise is an `Except Unit` value.
* Stateful methods become explicit state-passing functions returning the
  updated state; external side effects (database inserts, sprayer actuation,
  classification dispatch) are collected in an explicit `Effect` list.
-/

namespace SIHH

/-- A frame's shape: `frame.shape[:2]` in the Python source is
`(height, width)`. -/
structure Frame where
  height : ℤ
  width : ℤ
deriving DecidableEq, Repr

/-- A bounding box `(x1, y1, x2, y2)` in pixel coordinates. -/
structure BBox where
  x1 : ℤ
  y1 : ℤ
  x2 : ℤ
  y2 : ℤ
deriving DecidableEq, Repr

/-- A detection candidate: a bounding box plus a confidence score, the tuple
`(x1, y1, x2, y2, confidence)` of the Python source. -/
structure Candidate where
  x1 : ℤ
  y1 : ℤ
  x2 : ℤ
  y2 : ℤ
  confidence : ℚ
deriving DecidableEq, Repr

/-! ## `LightweightLeafSelector` (`app/video_detection.py`, lines 12-48) -/

/-- `self.region_size = 150` in `LightweightLeafSelector.__init__`. -/
def region_size : ℤ := 150

/-- `self.click_cooldown = 1.0` in `LightweightLeafSelector.__init__`. -/
def click_cooldown : ℚ := 1

/-- Mutable state of `LightweightLeafSelector`: `self.last_click_time`
(initially `0`). -/
structure SelectorState where
  last_click_time : ℚ
deriving DecidableEq, Repr

/-- Initial selector state (`self.last_click_time = 0`). -/
def init_selector : SelectorState := ⟨0⟩

/-- `LightweightLeafSelector.create_region_from_click`
(`app/video_detection.py`, lines 20-43): debounce by `click_cooldown`,
then build the `region_size` square centred on the click, clamp it to the
frame, and reject it when either clamped dimension is below 100 px.
`now` stands for the `time.time()` call. -/
def create_region_from_click (st : SelectorState) (now : ℚ)
    (frame_height frame_width : ℤ) (click_x click_y : ℤ) :
    SelectorState × Option BBox :=
  if now - st.last_click_time < click_cooldown then
    (st, none)
  else
    let st' : SelectorState := ⟨now⟩
    let half_size := region_size / 2
    let x1 := max 0 (click_x - half_size)
    let y1 := max 0 (click_y - half_size)
    let x2 := min frame_width (click_x + half_size)
    let y2 := min frame_height (click_y + half_size)
    if x2 - x1 < 100 ∨ y2 - y1 < 100 then
      (st', none)
    else
      (st', some ⟨x1, y1, x2, y2⟩)

/-! ## `MobileNetSSDLeafDetector` (`app/leaf_detector.py`, lines 11-162) -/

/-- Mutable state of `MobileNetSSDLeafDetector`: the loaded network (or
`None`) and the `is_initialized` flag.  The network object itself is opaque;
only its presence matters to the control flow. -/
structure DetectorState where
  confidence_threshold : ℚ
  net : Option Unit
  is_initialized : Bool
deriving DecidableEq, Repr

/-- Initial detector state (`MobileNetSSDLeafDetector.__init__` with the
default `confidence_threshold=0.5`). -/
def init_detector : DetectorState := ⟨1/2, none, false⟩

/-- One row of the SSD output tensor: `detections[0, 0, i, 1..6]` —
a class id, a confidence, and four normalised box coordinates. -/
structure RawDetection where
  confidence : ℚ
  class_id : ℤ
  nx1 : ℚ
  ny1 : ℚ
  nx2 : ℚ
  ny2 : ℚ
deriving DecidableEq, Repr

/-- Python `int(q)`: truncation toward zero. -/
def pyInt (q : ℚ) : ℤ := if 0 ≤ q then Int.floor q else -(Int.floor (-q))

/-- The per-detection filtering of the model path of `detect_leaves`
(`app/leaf_detector.py`, lines 62-90): keep rows whose confidence exceeds the
threshold and whose class id is 1, scale the normalised box back to frame
size, clamp it to the frame, and keep it only when both sides exceed 50 px. -/
def model_detections_to_leaves (threshold : ℚ) (width height : ℤ)
    (dets : List RawDetection) : List Candidate :=
  dets.filterMap fun d =>
    if threshold < d.confidence then
      if d.class_id = 1 then
        let x1 := max 0 (pyInt (d.nx1 * (width : ℚ)))
        let y1 := max 0 (pyInt (d.ny1 * (height : ℚ)))
        let x2 := min width (pyInt (d.nx2 * (width : ℚ)))
        let y2 := min height (pyInt (d.ny2 * (height : ℚ)))
        if 50 < x2 - x1 ∧ 50 < y2 - y1 then
          some ⟨x1, y1, x2, y2, d.confidence⟩
        else none
      else none
    else none

/-- One external contour of the binary mask, as used by the fallback path:
its area (`cv2.contourArea`) and its axis-aligned bounding rectangle
(`cv2.boundingRect`, returning `x, y, w, h`). -/
structure Contour where
  area : ℚ
  x : ℤ
  y : ℤ
  w : ℤ
  h : ℤ
deriving DecidableEq, Repr

/-- `aspect_ratio = w / h if h > 0 else 0` (`app/leaf_detector.py`,
line 126). -/
def aspect_ratio (c : Contour) : ℚ :=
  if 0 < c.h then (c.w : ℚ) / (c.h : ℚ) else 0

/-- The body of the contour loop of `_fallback_leaf_detection`
(`app/leaf_detector.py`, lines 118-131): a contour contributes a candidate
exactly when its area exceeds 1000 and its aspect ratio lies strictly
between 0.3 and 3.0; the candidate's box is the bounding rectangle and its
confidence is `min(0.8, area / 10000)`. -/
def fallback_contour_candidate (c : Contour) : Option Candidate :=
  if 1000 < c.area then
    let ar := aspect_ratio c
    let confidence := min (8/10 : ℚ) (c.area / 10000)
    if 3/10 < ar ∧ ar < 3 then
      some ⟨c.x, c.y, c.x + c.w, c.y + c.h, confidence⟩
    else none
  else none

/-- `MobileNetSSDLeafDetector._fallback_leaf_detection`
(`app/leaf_detector.py`, lines 96-137).  Everything up to and including
`cv2.findContours` is the OpenCV preprocessing of the frame; it is passed in
as `contours`, an `Except` because the whole body sits in a
`try/except` that returns `[]` on any exception. -/
def fallback_leaf_detection (contours : Except Unit (List Contour)) :
    List Candidate :=
  match contours with
  | Except.ok cs => cs.filterMap fallback_contour_candidate
  | Except.error _ => []

/-- `MobileNetSSDLeafDetector.detect_leaves` (`app/leaf_detector.py`,
lines 43-94): when the model variant is not ready
(`not self.is_initialized or self.net is None`) run the fallback; otherwise
run the inference pass (`inference`, an `Except` because the model path sits
in a `try/except`), and on an inference exception run the fallback. -/
def detect_leaves (st : DetectorState) (width height : ℤ)
    (inference : Except Unit (List RawDetection))
    (contours : Except Unit (List Contour)) : List Candidate :=
  if st.is_initialized = false ∨ st.net = none then
    fallback_leaf_detection contours
  else
    match inference with
    | Except.ok dets =>
        model_detections_to_leaves st.confidence_threshold width height dets
    | Except.error _ => fallback_leaf_detection contours

/-! ## `AutomaticLeafDetectionService` (`app/leaf_detector.py`,
lines 165-251) -/

/-- Mutable state of `AutomaticLeafDetectionService`.  The `last_results`
attribute is special: it is never assigned in `__init__` nor by any method,
yet `get_automatic_detections` reads it through
`getattr(leaf_detection_service, 'last_results', [])`; it is modelled as an
`Option` that is `none` while the attribute does not exist. -/
structure LeafServiceState where
  detector : DetectorState
  is_running : Bool
  detection_interval : ℚ
  last_detection_time : ℚ
  current_detections : List Candidate
  last_results : Option (List String)
deriving DecidableEq, Repr

/-- Initial state of the global `leaf_detection_service` singleton
(`AutomaticLeafDetectionService.__init__`): `detection_interval = 2.0`,
`last_detection_time = 0`, no `last_results` attribute. -/
def init_leaf_service : LeafServiceState :=
  { detector := init_detector
    is_running := false
    detection_interval := 2
    last_detection_time := 0
    current_detections := []
    last_results := none }

/-- `AutomaticLeafDetectionService.should_detect` (`app/leaf_detector.py`,
lines 241-247): the 2-second temporal gate; returns `true` and resets
`last_detection_time` when at least `detection_interval` has elapsed. -/
def should_detect (st : LeafServiceState) (now : ℚ) :
    LeafServiceState × Bool :=
  if st.detection_interval ≤ now - st.last_detection_time then
    ({ st with last_detection_time := now }, true)
  else
    (st, false)

/-! ## `VideoCaptureService` (`app/video_detection.py`, lines 51-302) -/

/-- Mutable state of `VideoCaptureService` (the capture handle itself is
omitted; only whether a frame is available matters). -/
structure ServiceState where
  selector : SelectorState
  is_running : Bool
  current_frame : Option Frame
  selected_regions : List BBox
  automatic_mode : Bool
  last_auto_detection_time : ℚ
  auto_detection_interval : ℚ
deriving DecidableEq, Repr

/-- Initial state of the global `video_service` singleton
(`VideoCaptureService.__init__`): manual mode, no frame, no regions,
`auto_detection_interval = 3.0`. -/
def init_video_service : ServiceState :=
  { selector := init_selector
    is_running := false
    current_frame := none
    selected_regions := []
    automatic_mode := false
    last_auto_detection_time := 0
    auto_detection_interval := 3 }

/-- `VideoCaptureService._should_run_auto_detection`
(`app/video_detection.py`, lines 138-144): the 3-second temporal gate of the
video loop. -/
def should_run_auto_detection (st : ServiceState) (now : ℚ) :
    ServiceState × Bool :=
  if st.auto_detection_interval ≤ now - st.last_auto_detection_time then
    ({ st with last_auto_detection_time := now }, true)
  else
    (st, false)

/-- Severity/duration configuration, read from `current_app.config` by
`_decide_action` (defaults 30.0, 70.0, 1000, 3000). -/
structure Config where
  severity_low_threshold : ℚ
  severity_high_threshold : ℚ
  spray_duration_low_ms : ℤ
  spray_duration_high_ms : ℤ
deriving DecidableEq, Repr

/-- `VideoCaptureService._decide_action` (`app/video_detection.py`,
lines 220-236): map a severity to an action name and a spray duration.
(The surrounding `try/except` only fires when the Flask application context
is missing, which is outside this model.) -/
def decide_action (cfg : Config) (severity : ℚ) : String × ℤ :=
  if severity < cfg.severity_low_threshold then
    ("none", 0)
  else if severity < cfg.severity_high_threshold then
    ("spray_short", cfg.spray_duration_low_ms)
  else
    ("spray_long", cfg.spray_duration_high_ms)

/-- External side effects of the pipeline: database inserts
(`insert_capture` / `insert_detection` / `insert_action` from `app/db.py`),
sprayer actuation (`spray_for_ms` from `app/gpio_control.py`), and a
classification dispatch (`requests.post` to `/api/upload_detect`). -/
inductive Effect where
  | insert_capture : Effect
  | insert_detection : Effect
  | insert_action (action : String) (duration_ms : ℤ) : Effect
  | spray (duration_ms : ℤ) : Effect
  | classify (bbox : BBox) : Effect
deriving DecidableEq, Repr

/-- `true` exactly on persistence and actuation effects. -/
def is_db_or_spray_effect : Effect → Bool
  | Effect.insert_capture => true
  | Effect.insert_detection => true
  | Effect.insert_action _ _ => true
  | Effect.spray _ => true
  | Effect.classify _ => false

/-- The fields of one automatic-detection result dict that
`_log_detection_result` reads. -/
structure DetectionRecordInfo where
  bbox : Option BBox
  disease : String
  severity : ℚ
  leaf_index : ℕ
deriving DecidableEq, Repr

/-- `VideoCaptureService._log_detection_result` (`app/video_detection.py`,
lines 176-218), as its emitted effect sequence: when a frame and a bbox are
present, insert the capture and the detection, spray when the decided
duration is positive, then insert the action. -/
def log_detection_result (cfg : Config) (st : ServiceState)
    (result : DetectionRecordInfo) : List Effect :=
  match st.current_frame with
  | none => []
  | some _ =>
    match result.bbox with
    | none => []
    | some _ =>
      let ad := decide_action cfg result.severity
      [Effect.insert_capture, Effect.insert_detection] ++
        (if 0 < ad.2 then [Effect.spray ad.2] else []) ++
          [Effect.insert_action ad.1 ad.2]

/-- `VideoCaptureService.add_click_region` (`app/video_detection.py`,
lines 238-250): rejected outright in automatic mode, rejected without a
frame; otherwise delegate to the selector and append an accepted region. -/
def add_click_region (st : ServiceState) (now : ℚ)
    (click_x click_y : ℤ) : ServiceState × Option BBox :=
  if st.automatic_mode then
    (st, none)
  else
    match st.current_frame with
    | none => (st, none)
    | some frame =>
      let sr := create_region_from_click st.selector now
        frame.height frame.width click_x click_y
      match sr.2 with
      | some region =>
          ({ st with selector := sr.1
                     selected_regions := st.selected_regions ++ [region] },
           some region)
      | none => ({ st with selector := sr.1 }, none)

/-- Python list indexing `xs[i]`: a non-negative index is used directly, a
negative index counts from the end, and an out-of-range index raises
`IndexError`. -/
def pyIndex {α : Type} (xs : List α) (i : ℤ) : Except Unit α :=
  let j := if i < 0 then (xs.length : ℤ) + i else i
  if h : 0 ≤ j ∧ j < (xs.length : ℤ) then
    Except.ok (xs.get ⟨j.toNat, by omega⟩)
  else
    Except.error ()

/-- Outcome of the classification round-trip
(`requests.post('http://localhost:5000/api/upload_detect', ...)`): a 200
response with a JSON payload (kept opaque as a string), a non-200 status, or
an exception raised inside the `try` block. -/
inductive ClassifyOutcome where
  | ok (payload : String) : ClassifyOutcome
  | httpError (status : ℤ) : ClassifyOutcome
  | exn (msg : String) : ClassifyOutcome
deriving DecidableEq, Repr

/-- The dict returned by `detect_and_classify_leaf`: either the classifier's
JSON payload, returned verbatim, or a dict `{"error": msg}`. -/
inductive DetectResult where
  | ok (payload : String) : DetectResult
  | err (msg : String) : DetectResult
deriving DecidableEq, Repr

/-- `VideoCaptureService.detect_and_classify_leaf` (`app/video_detection.py`,
lines 252-290).  The result is `Except.error ()` when the raw indexing
`self.selected_regions[region_index]` raises `IndexError` (it sits outside
the function's `try`), and otherwise the unchanged service state, the result
dict, and the emitted effects.  A classification dispatch is recorded in the
`ok` and `httpError` outcomes; in the `exn` outcome the exception may have
been raised before the request was sent (e.g. by `cv2.imwrite` or `open`),
so no dispatch is recorded. -/
def detect_and_classify_leaf (st : ServiceState) (region_index : ℤ)
    (api : ClassifyOutcome) :
    Except Unit (ServiceState × DetectResult × List Effect) :=
  if st.automatic_mode then
    Except.ok (st, DetectResult.err ("Manual detection disabled in automatic mode"), [])
  else if st.selected_regions = [] ∨
      (st.selected_regions.length : ℤ) ≤ region_index then
    Except.ok (st, DetectResult.err ("Invalid region index"), [])
  else
    match st.current_frame with
    | none => Except.ok (st, DetectResult.err ("No frame available"), [])
    | some _ =>
      match pyIndex st.selected_regions region_index with
      | Except.error _ => Except.error ()
      | Except.ok bbox =>
        match api with
        | ClassifyOutcome.ok payload =>
            Except.ok (st, DetectResult.ok payload, [Effect.classify bbox])
        | ClassifyOutcome.httpError status =>
            Except.ok (st,
              DetectResult.err ("API request failed: " ++ toString status),
              [Effect.classify bbox])
        | ClassifyOutcome.exn msg =>
            Except.ok (st, DetectResult.err ("Detection failed: " ++ msg), [])

/-- `VideoCaptureService.get_automatic_detections`
(`app/video_detection.py`, lines 292-298): empty in manual mode, otherwise
`getattr(leaf_detection_service, 'last_results', [])`. -/
def get_automatic_detections (vst : ServiceState)
    (lst : LeafServiceState) : List String :=
  if vst.automatic_mode = false then
    []
  else
    match lst.last_results with
    | none => []
    | some rs => rs

/-! ## HTTP command surface (`app/routes.py`) -/

/-- A route response: a successful region creation, a JSON-serialised result
dict, or an error payload with an HTTP status. -/
inductive RouteResponse where
  | success_region (region : BBox) (region_count : ℕ) : RouteResponse
  | json (result : DetectResult) : RouteResponse
  | error (status : ℤ) (msg : String) : RouteResponse
deriving DecidableEq, Repr

/-- Route `POST /api/video_click` (`app/routes.py`, lines 91-118): reject in
automatic mode with an explicit error, reject missing coordinates, otherwise
delegate to `add_click_region`. -/
def video_click (st : ServiceState) (now : ℚ)
    (coords : Option (ℤ × ℤ)) : ServiceState × RouteResponse :=
  if st.automatic_mode then
    (st, RouteResponse.error 400 ("Manual selection disabled in automatic mode"))
  else
    match coords with
    | none => (st, RouteResponse.error 400 ("Missing x or y coordinates"))
    | some (x, y) =>
      let sr := add_click_region st now x y
      match sr.2 with
      | some region =>
          (sr.1, RouteResponse.success_region region sr.1.selected_regions.length)
      | none =>
          (sr.1, RouteResponse.error 400 ("Failed to create region (try again in 1 second)"))

/-- Route `POST /api/detect_leaf` (`app/routes.py`, lines 121-134): reject in
automatic mode with an explicit error, otherwise delegate to
`detect_and_classify_leaf`; an escaped `IndexError` is caught by the route's
`except` and surfaced as a 500. -/
def detect_leaf (st : ServiceState) (region_index : ℤ)
    (api : ClassifyOutcome) : ServiceState × RouteResponse :=
  if st.automatic_mode then
    (st, RouteResponse.error 400 ("Manual detection disabled in automatic mode"))
  else
    match detect_and_classify_leaf st region_index api with
    | Except.ok r => (r.1, RouteResponse.json r.2.1)
    | Except.error _ =>
        (st, RouteResponse.error 500 ("list index out of range"))

/-! ## Reachability of the leaf-detection service state -/

/-- One observable state change of the global `leaf_detection_service`
singleton.  The covered writers are exhaustive for the repository:
`initialize` / `initialize_model` set `net` and `is_initialized`
(`app/leaf_detector.py`, lines 20-41),
`should_detect` resets `last_detection_time`, and the video loop assigns
`current_detections` (`app/video_detection.py`, line 151).
`detect_leaves_in_frame` and `process_detections` read the state but assign
no attribute. -/
inductive LeafStep : LeafServiceState → LeafServiceState → Prop where
  | init_success (st : LeafServiceState) :
      LeafStep st
        { st with detector :=
            { st.detector with net := some (), is_initialized := true } }
  | init_failure (st : LeafServiceState) :
      LeafStep st
        { st with detector := { st.detector with is_initialized := false } }
  | schedule (st : LeafServiceState) (now : ℚ) :
      LeafStep st (should_detect st now).1
  | set_current_detections (st : LeafServiceState) (ds : List Candidate) :
      LeafStep st { st with current_detections := ds }

/-- A leaf-service state reachable from the singleton's initial state. -/
def LeafReachable (st : LeafServiceState) : Prop :=
  Relation.ReflTransGen LeafStep init_leaf_service st

/-! ## C1: the severity-to-action decision -/

/-- C1 counterexample: the claim quantifies over *all* configured
thresholds, but with `low_threshold = high_threshold = 50` a severity
exactly equal to `low_threshold` takes the `spray_long` branch, not the
`spray_short` branch the claim promises for a severity exactly equal to the
low threshold. -/
theorem C1_counterexample :
    (Config.mk 50 50 1000 3000).severity_low_threshold = 50 ∧
    decide_action (Config.mk 50 50 1000 3000) 50 ≠ ("spray_short", 1000) ∧
    decide_action (Config.mk 50 50 1000 3000) 50 = ("spray_long", 3000) := by
  refine ⟨rfl, ?_, ?_⟩ <;> decide

/-- C1 (amended): provided `low_threshold < high_threshold`, `decide_action`
returns `(none, 0)` below the low threshold, `(spray_short, low_duration)`
from the low threshold up to (excluding) the high threshold, and
`(spray_long, high_duration)` from the high threshold on; in particular the
two boundary severities take the higher action. -/
theorem C1_decide_action_thresholds (cfg : Config) (severity : ℚ)
    (hlh : cfg.severity_low_threshold < cfg.severity_high_threshold) :
    (severity < cfg.severity_low_threshold →
        decide_action cfg severity = ("none", 0)) ∧
    (cfg.severity_low_threshold ≤ severity →
        severity < cfg.severity_high_threshold →
        decide_action cfg severity =
          ("spray_short", cfg.spray_duration_low_ms)) ∧
    (cfg.severity_high_threshold ≤ severity →
        decide_action cfg severity =
          ("spray_long", cfg.spray_duration_high_ms)) ∧
    decide_action cfg cfg.severity_low_threshold =
      ("spray_short", cfg.spray_duration_low_ms) ∧
    decide_action cfg cfg.severity_high_threshold =
      ("spray_long", cfg.spray_duration_high_ms) := by
  unfold decide_action
  refine ⟨?_, ?_, ?_, ?_, ?_⟩ <;> intros <;> split_ifs <;>
    first
      | rfl
      | (exfalso; linarith)

/-- C1 witness: the three spec examples plus both boundary severities at the
default configuration `low=30, high=70, low_duration=1000,
high_duration=3000`. -/
theorem C1_witness :
    decide_action (Config.mk 30 70 1000 3000) 10 = ("none", 0) ∧
    decide_action (Config.mk 30 70 1000 3000) 50 = ("spray_short", 1000) ∧
    decide_action (Config.mk 30 70 1000 3000) 90 = ("spray_long", 3000) ∧
    decide_action (Config.mk 30 70 1000 3000) 30 = ("spray_short", 1000) ∧
    decide_action (Config.mk 30 70 1000 3000) 70 = ("spray_long", 3000) :=
  ⟨(C1_decide_action_thresholds (Config.mk 30 70 1000 3000) 10
      (by norm_num)).1 (by norm_num),
   (C1_decide_action_thresholds (Config.mk 30 70 1000 3000) 50
      (by norm_num)).2.1 (by norm_num) (by norm_num),
   (C1_decide_action_thresholds (Config.mk 30 70 1000 3000) 90
      (by norm_num)).2.2.1 (by norm_num),
   (C1_decide_action_thresholds (Config.mk 30 70 1000 3000) 30
      (by norm_num)).2.2.2.1,
   (C1_decide_action_thresholds (Config.mk 30 70 1000 3000) 70
      (by norm_num)).2.2.2.2⟩

/-! ## C2: shape of the fallback detector's candidates -/

/-- C2: every candidate emitted by the fallback detector originates from a
contour with area above 1000 px², its box is that contour's bounding
rectangle `(x, y, x+w, y+h)`, its confidence is `min(0.8, area/10000)` and
hence at most 0.8, and its aspect ratio lies within `[0.3, 3.0]`; a contour
whose aspect ratio falls outside `[0.3, 3.0]` contributes no candidate. -/
theorem C2_fallback_candidate_shape (cs : List Contour) :
    (∀ cand, cand ∈ fallback_leaf_detection (Except.ok cs) →
      ∃ c, c ∈ cs ∧ 1000 < c.area ∧
        cand = ⟨c.x, c.y, c.x + c.w, c.y + c.h,
                min (8/10 : ℚ) (c.area / 10000)⟩ ∧
        3/10 ≤ aspect_ratio c ∧ aspect_ratio c ≤ 3 ∧
        cand.confidence ≤ 8/10) ∧
    (∀ c : Contour, aspect_ratio c < 3/10 ∨ 3 < aspect_ratio c →
      fallback_leaf_detection (Except.ok [c]) = []) := by
  constructor
  · intro cand hcand
    simp only [fallback_leaf_detection, List.mem_filterMap] at hcand
    obtain ⟨c, hc, hfc⟩ := hcand
    refine ⟨c, hc, ?_⟩
    simp only [fallback_contour_candidate] at hfc
    split_ifs at hfc with harea har
    · obtain ⟨har1, har2⟩ := har
      injection hfc with h
      subst h
      exact ⟨harea, rfl, le_of_lt har1, le_of_lt har2, min_le_left _ _⟩
  · intro c hout
    simp only [fallback_leaf_detection, List.filterMap_cons,
      List.filterMap_nil, fallback_contour_candidate]
    split_ifs with harea har
    · exfalso
      rcases hout with h | h
      · linarith [har.1]
      · linarith [har.2]
    · rfl
    · rfl

/-- C2 witness: a contour of area 2000 with bounding rectangle
`(10, 20, 40, 40)` yields the candidate `(10, 20, 50, 60)` with confidence
`min(0.8, 0.2) = 1/5`; a contour of area 2000 with a 40×4 bounding
rectangle (aspect ratio 10) yields nothing. -/
theorem C2_witness :
    (∃ c, c ∈ [Contour.mk 2000 10 20 40 40] ∧ 1000 < c.area ∧
      (Candidate.mk 10 20 50 60 (1/5)) =
        ⟨c.x, c.y, c.x + c.w, c.y + c.h,
         min (8/10 : ℚ) (c.area / 10000)⟩ ∧
      3/10 ≤ aspect_ratio c ∧ aspect_ratio c ≤ 3 ∧
      (Candidate.mk 10 20 50 60 (1/5)).confidence ≤ 8/10) ∧
    fallback_leaf_detection (Except.ok [Contour.mk 2000 0 0 40 4]) = [] :=
  ⟨(C2_fallback_candidate_shape [Contour.mk 2000 10 20 40 40]).1
      (Candidate.mk 10 20 50 60 (1/5))
      (by norm_num [fallback_leaf_detection, List.filterMap_cons,
        List.filterMap_nil, fallback_contour_candidate, aspect_ratio,
        min_def]),
   (C2_fallback_candidate_shape [Contour.mk 2000 0 0 40 4]).2
      (Contour.mk 2000 0 0 40 4) (Or.inr (by norm_num [aspect_ratio]))⟩

/-! ## C3: detect_leaves degrades instead of raising -/

/-- C3: `detect_leaves` always returns a plain candidate list (it is a total
function of the detector state and the two fallible OpenCV stages): when the
model variant is uninitialized or its network is absent it returns the
fallback detector's result; when the inference pass raises it returns the
fallback detector's result; and when the fallback's own preprocessing
raises, the fallback (and hence `detect_leaves` in those cases) returns the
empty list. -/
theorem C3_detect_leaves_falls_back (st : DetectorState) (width height : ℤ)
    (inference : Except Unit (List RawDetection))
    (contours : Except Unit (List Contour)) :
    (st.is_initialized = false ∨ st.net = none →
      detect_leaves st width height inference contours =
        fallback_leaf_detection contours) ∧
    (∀ e, inference = Except.error e →
      detect_leaves st width height inference contours =
        fallback_leaf_detection contours) ∧
    (∀ e, contours = Except.error e →
      fallback_leaf_detection contours = []) ∧
    (st.is_initialized = false ∨ st.net = none →
      ∀ e, contours = Except.error e →
        detect_leaves st width height inference contours = []) := by
  refine ⟨?_, ?_, ?_, ?_⟩
  · intro h
    unfold detect_leaves
    rw [if_pos h]
  · intro e he
    subst he
    unfold detect_leaves
    split_ifs with h
    · rfl
    · rfl
  · intro e he
    subst he
    rfl
  · intro h e he
    subst he
    unfold detect_leaves
    rw [if_pos h]
    rfl

/-- C3 witness: with the initial (uninitialized) detector state and a
failing contour stage, `detect_leaves` returns the empty list; with a
successfully extracted contour list it returns the fallback result; and an
inference failure on a ready detector also lands in the fallback. -/
theorem C3_witness :
    detect_leaves init_detector 640 480 (Except.error ())
      (Except.error ()) = [] ∧
    detect_leaves init_detector 640 480 (Except.error ())
      (Except.ok [Contour.mk 2000 10 20 40 40]) =
      fallback_leaf_detection
        (Except.ok [Contour.mk 2000 10 20 40 40]) ∧
    detect_leaves (DetectorState.mk (1/2) (some ()) true) 640 480
      (Except.error ()) (Except.ok []) =
      fallback_leaf_detection (Except.ok []) :=
  ⟨(C3_detect_leaves_falls_back init_detector 640 480 (Except.error ())
      (Except.error ())).2.2.2 (Or.inl rfl) () rfl,
   (C3_detect_leaves_falls_back init_detector 640 480 (Except.error ())
      (Except.ok [Contour.mk 2000 10 20 40 40])).1 (Or.inl rfl),
   (C3_detect_leaves_falls_back (DetectorState.mk (1/2) (some ()) true)
      640 480 (Except.error ()) (Except.ok [])).2.1 () rfl⟩

/-! ## C4 / C5: click debouncing and region geometry -/

/-- Closed form of `create_region_from_click`: the cooldown test, then the
clamped 150-px box with the sub-100-px rejection. -/
theorem create_region_from_click_eq (st : SelectorState) (now : ℚ)
    (H W cx cy : ℤ) :
    create_region_from_click st now H W cx cy =
      if now - st.last_click_time < 1 then (st, none)
      else if min W (cx + 75) - max 0 (cx - 75) < 100 ∨
          min H (cy + 75) - max 0 (cy - 75) < 100 then
        (⟨now⟩, none)
      else
        (⟨now⟩, some ⟨max 0 (cx - 75), max 0 (cy - 75),
                      min W (cx + 75), min H (cy + 75)⟩) := by
  have h75 : region_size / 2 = (75 : ℤ) := by decide
  simp only [create_region_from_click, click_cooldown, h75]

/-- C4: the click cooldown.  A call within 1.0 s of `last_click_time`
returns `none` and leaves the whole selector state (hence
`last_click_time`) unchanged; a call at least 1.0 s after updates
`last_click_time` to the call time even when the region is then rejected
for minimum size; consequently of two clicks less than 1.0 s apart the
second returns `none`, while two clicks at least 1.0 s apart whose clamped
boxes are large enough both succeed. -/
theorem C4_click_cooldown :
    (∀ (st : SelectorState) (now : ℚ) (H W cx cy : ℤ),
      now - st.last_click_time < 1 →
      create_region_from_click st now H W cx cy = (st, none)) ∧
    (∀ (st : SelectorState) (now : ℚ) (H W cx cy : ℤ),
      1 ≤ now - st.last_click_time →
      (create_region_from_click st now H W cx cy).1.last_click_time = now) ∧
    (∀ (st : SelectorState) (t1 t2 : ℚ) (H W cx1 cy1 cx2 cy2 : ℤ),
      1 ≤ t1 - st.last_click_time → t2 - t1 < 1 →
      (create_region_from_click
        (create_region_from_click st t1 H W cx1 cy1).1
        t2 H W cx2 cy2).2 = none) ∧
    (∀ (st : SelectorState) (t1 t2 : ℚ) (H W cx1 cy1 cx2 cy2 : ℤ),
      1 ≤ t1 - st.last_click_time → 1 ≤ t2 - t1 →
      100 ≤ min W (cx1 + 75) - max 0 (cx1 - 75) →
      100 ≤ min H (cy1 + 75) - max 0 (cy1 - 75) →
      100 ≤ min W (cx2 + 75) - max 0 (cx2 - 75) →
      100 ≤ min H (cy2 + 75) - max 0 (cy2 - 75) →
      (create_region_from_click st t1 H W cx1 cy1).2.isSome = true ∧
      (create_region_from_click
        (create_region_from_click st t1 H W cx1 cy1).1
        t2 H W cx2 cy2).2.isSome = true) := by
  refine ⟨?_, ?_, ?_, ?_⟩
  · intro st now H W cx cy h
    rw [create_region_from_click_eq, if_pos h]
  · intro st now H W cx cy h
    rw [create_region_from_click_eq, if_neg (not_lt.mpr h)]
    split_ifs <;> rfl
  · intro st t1 t2 H W cx1 cy1 cx2 cy2 h1 h2
    have e1 : (create_region_from_click st t1 H W cx1 cy1).1 = ⟨t1⟩ := by
      rw [create_region_from_click_eq, if_neg (not_lt.mpr h1)]
      split_ifs <;> rfl
    rw [e1, create_region_from_click_eq,
      if_pos (show t2 - (SelectorState.mk t1).last_click_time < 1 from h2)]
  · intro st t1 t2 H W cx1 cy1 cx2 cy2 h1 h2 hx1 hy1 hx2 hy2
    have e1 : (create_region_from_click st t1 H W cx1 cy1).1 = ⟨t1⟩ := by
      rw [create_region_from_click_eq, if_neg (not_lt.mpr h1)]
      split_ifs <;> rfl
    constructor
    · rw [create_region_from_click_eq, if_neg (not_lt.mpr h1),
        if_neg (not_or.mpr ⟨not_lt.mpr hx1, not_lt.mpr hy1⟩)]
      rfl
    · rw [e1, create_region_from_click_eq,
        if_neg (show ¬ t2 - (SelectorState.mk t1).last_click_time < 1 from
          not_lt.mpr h2),
        if_neg (not_or.mpr ⟨not_lt.mpr hx2, not_lt.mpr hy2⟩)]
      rfl

/-- C4 witness: with `last_click_time = 0`, a click at `t = 0.5` is dropped
with the state unchanged; a click at `t = 2` updates the timer; a second
click at `t = 2.5` is dropped; second click at `t = 4` also succeeds
(clicks at the centre of a 640×480 frame). -/
theorem C4_witness :
    create_region_from_click ⟨0⟩ (1/2) 480 640 320 240 = (⟨0⟩, none) ∧
    (create_region_from_click ⟨0⟩ 2 480 640 320 240).1.last_click_time
      = 2 ∧
    (create_region_from_click
      (create_region_from_click ⟨0⟩ 2 480 640 320 240).1
      (5/2) 480 640 320 240).2 = none ∧
    ((create_region_from_click ⟨0⟩ 2 480 640 320 240).2.isSome = true ∧
     (create_region_from_click
       (create_region_from_click ⟨0⟩ 2 480 640 320 240).1
       4 480 640 320 240).2.isSome = true) :=
  ⟨C4_click_cooldown.1 ⟨0⟩ (1/2) 480 640 320 240 (by norm_num),
   C4_click_cooldown.2.1 ⟨0⟩ 2 480 640 320 240 (by norm_num),
   C4_click_cooldown.2.2.1 ⟨0⟩ 2 (5/2) 480 640 320 240 320 240
     (by norm_num) (by norm_num),
   C4_click_cooldown.2.2.2 ⟨0⟩ 2 4 480 640 320 240 320 240
     (by norm_num) (by norm_num) (by decide) (by decide) (by decide)
     (by decide)⟩

/-- C5: for clicks inside the frame, any box returned is exactly the 150-px
square centred on the click, clamped to the frame; it is fully contained in
`[0, W] × [0, H]` with both dimensions at least 100; and whenever either
clamped dimension falls below 100 the call returns `none` rather than a
smaller box. -/
theorem C5_region_geometry (st : SelectorState) (now : ℚ) (H W cx cy : ℤ)
    (hx0 : 0 ≤ cx) (hxW : cx ≤ W) (hy0 : 0 ≤ cy) (hyH : cy ≤ H) :
    (∀ b, (create_region_from_click st now H W cx cy).2 = some b →
      b = ⟨max 0 (cx - 75), max 0 (cy - 75),
           min W (cx + 75), min H (cy + 75)⟩ ∧
      0 ≤ b.x1 ∧ b.x1 ≤ b.x2 ∧ b.x2 ≤ W ∧
      0 ≤ b.y1 ∧ b.y1 ≤ b.y2 ∧ b.y2 ≤ H ∧
      100 ≤ b.x2 - b.x1 ∧ 100 ≤ b.y2 - b.y1) ∧
    (min W (cx + 75) - max 0 (cx - 75) < 100 ∨
        min H (cy + 75) - max 0 (cy - 75) < 100 →
      (create_region_from_click st now H W cx cy).2 = none) := by
  constructor
  · intro b hb
    rw [create_region_from_click_eq] at hb
    split_ifs at hb with hcool hsize
    · simp only [Option.some.injEq] at hb
      subst hb
      push_neg at hsize
      obtain ⟨hsx, hsy⟩ := hsize
      exact ⟨rfl,
        le_max_left 0 _,
        show max 0 (cx - 75) ≤ min W (cx + 75) by linarith,
        min_le_left _ _,
        le_max_left 0 _,
        show max 0 (cy - 75) ≤ min H (cy + 75) by linarith,
        min_le_left _ _,
        hsx, hsy⟩
  · intro hsize
    rw [create_region_from_click_eq]
    split_ifs <;> rfl

/-- C5 witness: a click at the centre `(320, 240)` of a 640×480 frame at
`t = 5` (cooldown clear) yields exactly the box `(245, 165, 395, 315)`,
contained in the frame with both sides `150 ≥ 100`. -/
theorem C5_witness :
    BBox.mk 245 165 395 315 =
      ⟨max 0 (320 - 75), max 0 (240 - 75),
       min 640 (320 + 75), min 480 (240 + 75)⟩ ∧
    0 ≤ (BBox.mk 245 165 395 315).x1 ∧
    (BBox.mk 245 165 395 315).x1 ≤ (BBox.mk 245 165 395 315).x2 ∧
    (BBox.mk 245 165 395 315).x2 ≤ 640 ∧
    0 ≤ (BBox.mk 245 165 395 315).y1 ∧
    (BBox.mk 245 165 395 315).y1 ≤ (BBox.mk 245 165 395 315).y2 ∧
    (BBox.mk 245 165 395 315).y2 ≤ 480 ∧
    100 ≤ (BBox.mk 245 165 395 315).x2 - (BBox.mk 245 165 395 315).x1 ∧
    100 ≤ (BBox.mk 245 165 395 315).y2 - (BBox.mk 245 165 395 315).y1 :=
  (C5_region_geometry ⟨0⟩ 5 480 640 320 240 (by norm_num) (by norm_num)
    (by norm_num) (by norm_num)).1 (BBox.mk 245 165 395 315)
    (by rw [create_region_from_click_eq]; norm_num [min_def, max_def])

/-! ## C6: the temporal detection gates -/

/-- C6: both temporal gates return `true` exactly when
`now - last_run_time ≥ interval`, and resetting happens exactly on a `true`
return; the video-loop gate is configured at 3.0 s and the standalone
leaf-service gate at 2.0 s; and the 3-second gate run at `T`, `T+1`,
`T+3.1` answers true, false, true. -/
theorem C6_detection_gates (vst : ServiceState) (lst : LeafServiceState)
    (now : ℚ) :
    ((should_run_auto_detection vst now).2 = true ↔
      vst.auto_detection_interval ≤ now - vst.last_auto_detection_time) ∧
    ((should_run_auto_detection vst now).2 = true →
      (should_run_auto_detection vst now).1 =
        { vst with last_auto_detection_time := now }) ∧
    ((should_run_auto_detection vst now).2 = false →
      (should_run_auto_detection vst now).1 = vst) ∧
    ((should_detect lst now).2 = true ↔
      lst.detection_interval ≤ now - lst.last_detection_time) ∧
    ((should_detect lst now).2 = true →
      (should_detect lst now).1 = { lst with last_detection_time := now }) ∧
    ((should_detect lst now).2 = false → (should_detect lst now).1 = lst) ∧
    init_video_service.auto_detection_interval = 3 ∧
    init_leaf_service.detection_interval = 2 ∧
    (∀ (st : ServiceState) (T : ℚ), st.auto_detection_interval = 3 →
      3 ≤ T - st.last_auto_detection_time →
      (should_run_auto_detection st T).2 = true ∧
      (should_run_auto_detection
        (should_run_auto_detection st T).1 (T + 1)).2 = false ∧
      (should_run_auto_detection
        (should_run_auto_detection
          (should_run_auto_detection st T).1 (T + 1)).1
        (T + 31/10)).2 = true) := by
  refine ⟨?_, ?_, ?_, ?_, ?_, ?_, rfl, rfl, ?_⟩
  · unfold should_run_auto_detection
    split_ifs with h
    · simpa using h
    · simpa using h
  · unfold should_run_auto_detection
    split_ifs with h
    · intro _; rfl
    · intro hfalse; cases hfalse
  · unfold should_run_auto_detection
    split_ifs with h
    · intro hfalse; cases hfalse
    · intro _; rfl
  · unfold should_detect
    split_ifs with h
    · simpa using h
    · simpa using h
  · unfold should_detect
    split_ifs with h
    · intro _; rfl
    · intro hfalse; cases hfalse
  · unfold should_detect
    split_ifs with h
    · intro hfalse; cases hfalse
    · intro _; rfl
  · intro st T hint hdue
    have e1 : should_run_auto_detection st T =
        ({ st with last_auto_detection_time := T }, true) := by
      unfold should_run_auto_detection
      rw [if_pos (by rw [hint]; exact hdue)]
    rw [e1]
    have e2 : should_run_auto_detection
        ({ st with last_auto_detection_time := T } : ServiceState)
        (T + 1) =
        ({ st with last_auto_detection_time := T }, false) := by
      unfold should_run_auto_detection
      rw [if_neg]
      simp only [hint]
      intro hc
      simp at hc
    rw [e2]
    have e3 : (should_run_auto_detection
        ({ st with last_auto_detection_time := T } : ServiceState)
        (T + 31/10)).2 = true := by
      unfold should_run_auto_detection
      rw [if_pos]
      simp only [hint]
      linarith
    exact ⟨rfl, rfl, e3⟩

/-- C6 witness: the initial service states have intervals 3.0 and 2.0, and
from `last_auto_detection_time = 0` the calls at `t = 10`, `t = 11`,
`t = 10 + 3.1` answer true, false, true. -/
theorem C6_witness :
    (should_run_auto_detection init_video_service 10).2 = true ∧
    (should_run_auto_detection
      (should_run_auto_detection init_video_service 10).1 (10 + 1)).2
      = false ∧
    (should_run_auto_detection
      (should_run_auto_detection
        (should_run_auto_detection init_video_service 10).1 (10 + 1)).1
      (10 + 31/10)).2 = true ∧
    (should_detect init_leaf_service 10).2 = true :=
  ⟨((C6_detection_gates init_video_service init_leaf_service 10).2.2.2.2.2.2.2.2
      init_video_service 10 rfl (by norm_num [init_video_service])).1,
   ((C6_detection_gates init_video_service init_leaf_service 10).2.2.2.2.2.2.2.2
      init_video_service 10 rfl (by norm_num [init_video_service])).2.1,
   ((C6_detection_gates init_video_service init_leaf_service 10).2.2.2.2.2.2.2.2
      init_video_service 10 rfl (by norm_num [init_video_service])).2.2,
   ((C6_detection_gates init_video_service init_leaf_service 10).2.2.2.1).mpr
      (by norm_num [init_leaf_service])⟩

/-! ## C7: rejections in automatic mode -/

/-- C7: whenever `automatic_mode` is set, manual region creation and manual
classify-by-index are rejected without any state mutation: the core
`add_click_region` returns `none` with the state untouched,
`detect_and_classify_leaf` returns the explicit
"Manual detection disabled in automatic mode" error dict with the state
untouched and no side effect, and the two HTTP commands relay the explicit
"disabled in automatic mode" errors, again with the state untouched (so
`selected_regions`, `last_click_time`, `current_frame` and `automatic_mode`
are all unchanged). -/
theorem C7_automatic_mode_rejections (st : ServiceState) (now : ℚ)
    (cx cy : ℤ) (coords : Option (ℤ × ℤ)) (i : ℤ) (api : ClassifyOutcome)
    (hauto : st.automatic_mode = true) :
    add_click_region st now cx cy = (st, none) ∧
    detect_and_classify_leaf st i api =
      Except.ok (st,
        DetectResult.err ("Manual detection disabled in automatic mode"),
        []) ∧
    video_click st now coords =
      (st, RouteResponse.error 400
        ("Manual selection disabled in automatic mode")) ∧
    detect_leaf st i api =
      (st, RouteResponse.error 400
        ("Manual detection disabled in automatic mode")) := by
  refine ⟨?_, ?_, ?_, ?_⟩
  · unfold add_click_region
    rw [if_pos hauto]
  · unfold detect_and_classify_leaf
    rw [if_pos hauto]
  · unfold video_click
    rw [if_pos hauto]
  · unfold detect_leaf
    rw [if_pos hauto]

/-- C7 witness: the rejections at a concrete automatic-mode state holding
one selected region and a live frame. -/
theorem C7_witness :
    add_click_region
      (ServiceState.mk ⟨0⟩ true (some ⟨480, 640⟩) [⟨0, 0, 150, 150⟩]
        true 0 3) 5 320 240 =
      (ServiceState.mk ⟨0⟩ true (some ⟨480, 640⟩) [⟨0, 0, 150, 150⟩]
        true 0 3, none) ∧
    detect_and_classify_leaf
      (ServiceState.mk ⟨0⟩ true (some ⟨480, 640⟩) [⟨0, 0, 150, 150⟩]
        true 0 3) 0 (ClassifyOutcome.ok ("p")) =
      Except.ok (ServiceState.mk ⟨0⟩ true (some ⟨480, 640⟩)
        [⟨0, 0, 150, 150⟩] true 0 3,
        DetectResult.err ("Manual detection disabled in automatic mode"),
        []) ∧
    video_click
      (ServiceState.mk ⟨0⟩ true (some ⟨480, 640⟩) [⟨0, 0, 150, 150⟩]
        true 0 3) 5 (some (320, 240)) =
      (ServiceState.mk ⟨0⟩ true (some ⟨480, 640⟩) [⟨0, 0, 150, 150⟩]
        true 0 3,
       RouteResponse.error 400
         ("Manual selection disabled in automatic mode")) ∧
    detect_leaf
      (ServiceState.mk ⟨0⟩ true (some ⟨480, 640⟩) [⟨0, 0, 150, 150⟩]
        true 0 3) 0 (ClassifyOutcome.ok ("p")) =
      (ServiceState.mk ⟨0⟩ true (some ⟨480, 640⟩) [⟨0, 0, 150, 150⟩]
        true 0 3,
       RouteResponse.error 400
         ("Manual detection disabled in automatic mode")) :=
  C7_automatic_mode_rejections
    (ServiceState.mk ⟨0⟩ true (some ⟨480, 640⟩) [⟨0, 0, 150, 150⟩]
      true 0 3) 5 320 240 (some (320, 240)) 0
    (ClassifyOutcome.ok ("p")) rfl

/-! ## C8: region-index validation in the manual classify flow -/

/-- A concrete manual-mode service state with one selected region and a
live 640×480 frame. -/
def sample_manual_state : ServiceState :=
  ServiceState.mk ⟨0⟩ true (some ⟨480, 640⟩) [⟨0, 0, 150, 150⟩] false 0 3

/-- C8 evaluated at the failing input: the bounds guard
`if not self.selected_regions or region_index >= len(self.selected_regions)`
never tests for negative indices, so `region_index = -1` with one selected
region passes the guard, indexes the region list from the end, and
dispatches a classification call instead of returning the structured
"Invalid region index" error; an index `≥ length` (here `1`) is rejected as
the claim describes. -/
theorem C8_negative_index_dispatches :
    detect_and_classify_leaf sample_manual_state (-1)
      (ClassifyOutcome.ok ("payload")) =
      Except.ok (sample_manual_state, DetectResult.ok ("payload"),
        [Effect.classify ⟨0, 0, 150, 150⟩]) ∧
    detect_and_classify_leaf sample_manual_state 1
      (ClassifyOutcome.ok ("payload")) =
      Except.ok (sample_manual_state,
        DetectResult.err ("Invalid region index"), []) := by
  constructor <;> rfl

/-! ## C9: the manual classify flow persists nothing and actuates nothing -/

/-- C9: in every non-raising execution of `detect_and_classify_leaf`
(mode rejection, bounds rejection, missing frame, successful
classification, non-200 response, transport exception) the service state is
returned unchanged — in particular `selected_regions` and `automatic_mode`
— the emitted effects contain no database insert and no sprayer actuation,
and any successful result is the external classifier's payload verbatim. -/
theorem C9_manual_classify_effect_free (st : ServiceState) (i : ℤ)
    (api : ClassifyOutcome) (st' : ServiceState) (res : DetectResult)
    (effs : List Effect)
    (h : detect_and_classify_leaf st i api = Except.ok (st', res, effs)) :
    st' = st ∧
    st'.selected_regions = st.selected_regions ∧
    st'.automatic_mode = st.automatic_mode ∧
    (∀ e ∈ effs, is_db_or_spray_effect e = false) ∧
    (∀ p, res = DetectResult.ok p → api = ClassifyOutcome.ok p) := by
  unfold detect_and_classify_leaf at h
  split_ifs at h with h1 h2
  · simp only [Except.ok.injEq, Prod.mk.injEq] at h
    obtain ⟨hst, hres, heff⟩ := h
    subst hst; subst hres; subst heff
    refine ⟨rfl, rfl, rfl, by simp, ?_⟩
    intro p hp
    simp at hp
  · simp only [Except.ok.injEq, Prod.mk.injEq] at h
    obtain ⟨hst, hres, heff⟩ := h
    subst hst; subst hres; subst heff
    refine ⟨rfl, rfl, rfl, by simp, ?_⟩
    intro p hp
    simp at hp
  · split at h
    · simp only [Except.ok.injEq, Prod.mk.injEq] at h
      obtain ⟨hst, hres, heff⟩ := h
      subst hst; subst hres; subst heff
      refine ⟨rfl, rfl, rfl, by simp, ?_⟩
      intro p hp
      simp at hp
    · split at h
      · cases h
      · cases api with
        | ok p =>
          simp only [Except.ok.injEq, Prod.mk.injEq] at h
          obtain ⟨hst, hres, heff⟩ := h
          subst hst; subst hres; subst heff
          refine ⟨rfl, rfl, rfl, ?_, ?_⟩
          · intro e he
            simp only [List.mem_singleton] at he
            subst he
            rfl
          · intro q hq
            simp only [DetectResult.ok.injEq] at hq
            subst hq
            rfl
        | httpError s =>
          simp only [Except.ok.injEq, Prod.mk.injEq] at h
          obtain ⟨hst, hres, heff⟩ := h
          subst hst; subst hres; subst heff
          refine ⟨rfl, rfl, rfl, ?_, ?_⟩
          · intro e he
            simp only [List.mem_singleton] at he
            subst he
            rfl
          · intro q hq
            simp at hq
        | exn m =>
          simp only [Except.ok.injEq, Prod.mk.injEq] at h
          obtain ⟨hst, hres, heff⟩ := h
          subst hst; subst hres; subst heff
          refine ⟨rfl, rfl, rfl, by simp, ?_⟩
          intro q hq
          simp at hq

/-- C9 witness: a successful in-bounds manual classification returns the
payload verbatim, touches no state, and emits only the classification
dispatch. -/
theorem C9_witness :
    sample_manual_state = sample_manual_state ∧
    sample_manual_state.selected_regions =
      sample_manual_state.selected_regions ∧
    sample_manual_state.automatic_mode =
      sample_manual_state.automatic_mode ∧
    (∀ e ∈ [Effect.classify (BBox.mk 0 0 150 150)],
      is_db_or_spray_effect e = false) ∧
    (∀ p, DetectResult.ok ("payload") = DetectResult.ok p →
      ClassifyOutcome.ok ("payload") = ClassifyOutcome.ok p) :=
  C9_manual_classify_effect_free sample_manual_state 0
    (ClassifyOutcome.ok ("payload")) sample_manual_state
    (DetectResult.ok ("payload"))
    [Effect.classify (BBox.mk 0 0 150 150)] (by rfl)

/-! ## C10: automatic detections can never surface -/

/-- C10: `get_automatic_detections` returns `[]` in every reachable state —
in manual mode by the explicit guard, and in automatic mode because no
operation of the leaf-detection service ever creates the `last_results`
attribute that it reads with an empty-list default. -/
theorem C10_automatic_detections_always_empty (vst : ServiceState)
    (lst : LeafServiceState) :
    (vst.automatic_mode = false → get_automatic_detections vst lst = []) ∧
    (LeafReachable lst → get_automatic_detections vst lst = []) := by
  have hinv : ∀ s, LeafReachable s → s.last_results = none := by
    intro s hs
    unfold LeafReachable at hs
    induction hs with
    | refl => rfl
    | tail hsteps step ih =>
      cases step with
      | init_success => simpa using ih
      | init_failure => simpa using ih
      | schedule now =>
        unfold should_detect
        split_ifs <;> simpa using ih
      | set_current_detections ds => simpa using ih
  constructor
  · intro h
    unfold get_automatic_detections
    rw [if_pos h]
  · intro hreach
    unfold get_automatic_detections
    split_ifs with h
    · rfl
    · rw [hinv lst hreach]

/-- C10 witness: the empty result in the initial (manual) state, and in an
automatic-mode video state paired with a leaf-service state reached by one
scheduler tick. -/
theorem C10_witness :
    get_automatic_detections init_video_service init_leaf_service = [] ∧
    get_automatic_detections
      (ServiceState.mk ⟨0⟩ true none [] true 0 3)
      (should_detect init_leaf_service 10).1 = [] :=
  ⟨(C10_automatic_detections_always_empty init_video_service
      init_leaf_service).1 rfl,
   (C10_automatic_detections_always_empty
      (ServiceState.mk ⟨0⟩ true none [] true 0 3)
      (should_detect init_leaf_service 10).1).2
     (Relation.ReflTransGen.single
       (LeafStep.schedule init_leaf_service 10))⟩

end SIHH
